import Mathlib

/-!
Verification development for the StringSpotter transparent-PNG text renderer
(`image_generator.py`).  The Python source is shallowly embedded: pure helper
functions become Lean functions, the rendering pipeline becomes an explicit
state-passing fold, PIL raster images become records with a pixel function,
and the external PIL primitives (glyph drawing, text measurement, Gaussian
blur, resampling) become oracle fields of an `Env` record, since their
behaviour lives outside the repository.  Machine floats of the source are
modelled with exact rationals; `//` is modelled with `Int.fdiv`; Python
`int(·)` truncation toward zero is modelled explicitly.  Fallible code
returns `Except RenderErr`.
-/

/-- Whitespace characters stripped by Python `str.strip()` (the
`Py_UNICODE_ISSPACE` set). -/
def pyIsSpace (c : Char) : Bool :=
  c.toNat ∈ [9, 10, 11, 12, 13, 28, 29, 30, 31, 32,
    0x85, 0xa0, 0x1680, 0x2028, 0x2029, 0x205f, 0x3000] ||
  (0x2000 ≤ c.toNat && c.toNat ≤ 0x200a)

/-- Whitespace characters skipped around the digits by CPython
`int(s, 16)`; unlike `str.strip()` this does not include the
file/group/record/unit separators `\x1c`–`\x1f`. -/
def pyIntIsSpace (c : Char) : Bool :=
  c.toNat ∈ [9, 10, 11, 12, 13, 32,
    0x85, 0xa0, 0x1680, 0x2028, 0x2029, 0x205f, 0x3000] ||
  (0x2000 ≤ c.toNat && c.toNat ≤ 0x200a)

/-- Model of Python `str.strip()` on a character list: drop leading and
trailing whitespace. -/
def pyStripL (l : List Char) : List Char :=
  ((l.dropWhile pyIsSpace).reverse.dropWhile pyIsSpace).reverse

/-- Model of Python `str.strip()` on strings. -/
def pyStrip (s : String) : String :=
  String.mk (pyStripL s.data)

/-- Model of Python `str.split(sep)` for a one-character separator: split at
every occurrence, keeping empty pieces (so the result is always nonempty). -/
def pySplitChar (sep : Char) : List Char → List (List Char)
  | [] => [[]]
  | c :: rest =>
    let r := pySplitChar sep rest
    if c = sep then [] :: r
    else
      match r with
      | [] => [[c]]
      | g :: gs => (c :: g) :: gs

/-- Value of a single hexadecimal digit, case-insensitive, as accepted by
Python `int(·, 16)`. -/
def hexDigitVal (c : Char) : Option ℕ :=
  if 48 ≤ c.toNat ∧ c.toNat ≤ 57 then some (c.toNat - 48)
  else if 97 ≤ c.toNat ∧ c.toNat ≤ 102 then some (c.toNat - 87)
  else if 65 ≤ c.toNat ∧ c.toNat ≤ 70 then some (c.toNat - 55)
  else none

/-- Continuation of Python base-16 digit parsing after at least one digit has
been read: further digits, with single underscores allowed only between
digits. -/
def hexTailVal : ℕ → List Char → Option ℕ
  | acc, [] => some acc
  | acc, c :: r =>
    if c = '_' then
      match r with
      | [] => none
      | d :: r2 =>
        match hexDigitVal d with
        | some v => hexTailVal (acc * 16 + v) r2
        | none => none
    else
      match hexDigitVal c with
      | some v => hexTailVal (acc * 16 + v) r
      | none => none

/-- Python base-16 digit-run parsing: at least one hex digit, single
underscores allowed between digits. -/
def hexRunVal : List Char → Option ℕ
  | c :: r =>
    match hexDigitVal c with
    | some d => hexTailVal d r
    | none => none
  | [] => none

/-- Python base-16 parsing after the optional sign: an optional `0x`/`0X`
prefix (an underscore may directly follow the prefix), then a digit run. -/
def hexAfterSign : List Char → Option ℕ
  | c0 :: x :: rest =>
    if c0 = '0' ∧ (x = 'x' ∨ x = 'X') then
      match rest with
      | c :: r => if c = '_' then hexRunVal r else hexRunVal (c :: r)
      | [] => hexRunVal []
    else hexRunVal (c0 :: x :: rest)
  | l => hexRunVal l

/-- Model of CPython `int(s, 16)` on a character list (ASCII range):
surrounding whitespace, an optional single sign, an optional `0x`/`0X`
prefix, hex digits with single underscores between digits.  Returns `none`
exactly when CPython raises `ValueError`. -/
def pyInt16 (l : List Char) : Option ℤ :=
  let core := (((l.dropWhile pyIntIsSpace).reverse.dropWhile pyIntIsSpace).reverse)
  match core with
  | c :: r =>
    if c = '+' then
      match hexAfterSign r with
      | some n => some (n : ℤ)
      | none => none
    else if c = '-' then
      match hexAfterSign r with
      | some n => some (-(n : ℤ))
      | none => none
    else
      match hexAfterSign (c :: r) with
      | some n => some (n : ℤ)
      | none => none
  | [] => none

/-- Model of Python `s.startswith('#')`. -/
def startsWithHash (s : String) : Bool :=
  match s.data with
  | c :: _ => c = '#'
  | [] => false

/-- The distinct `ValueError` raise sites of the rendering core.  The source
raises only these; in particular no font-related error exists. -/
inductive RenderErr where
  | textInvalid
  | fontSizeInvalid
  | colorInvalid
  | hexColorInvalid
  deriving DecidableEq, Repr

/-- Source `validate_text_input`: reject when the stripped text is empty or
when the RAW (unstripped) text is longer than 100 characters; on success
return the stripped text. -/
def validate_text_input (text : String) : Except RenderErr String :=
  if (pyStrip text).data.isEmpty then .error .textInvalid
  else if text.length > 100 then .error .textInvalid
  else .ok (pyStrip text)

/-- Source `validate_font_size`: the input is modelled post-`int(·)` coercion
(`none` = not integer-coercible); accepted range is 8–72 inclusive. -/
def validate_font_size (size : Option ℤ) : Except RenderErr ℤ :=
  match size with
  | none => .error .fontSizeInvalid
  | some n => if 8 ≤ n ∧ n ≤ 72 then .ok n else .error .fontSizeInvalid

/-- Source `validate_color`: requires a `#` first character, total length 7,
and that `int(color[1:], 16)` succeeds; returns the input unchanged. -/
def validate_color (color : String) : Except RenderErr String :=
  if ¬ (startsWithHash color = true) ∨ color.length ≠ 7 then .error .colorInvalid
  else if (pyInt16 (color.data.drop 1)).isSome then .ok color
  else .error .colorInvalid

/-- Source `validate_shadow`: blur outside `[0,20]` is replaced by 5; a
colour failing the shallow check (`#` first character and length 7) is
replaced by `"#000000"`.  Never fails. -/
def validate_shadow (shadow_enabled : Bool) (shadow_blur : ℤ) (shadow_color : String) :
    Bool × ℤ × String :=
  let b := if shadow_blur < 0 ∨ shadow_blur > 20 then 5 else shadow_blur
  let c := if ¬ (startsWithHash shadow_color = true) ∨ shadow_color.length ≠ 7 then
    "#000000" else shadow_color
  (shadow_enabled, b, c)

/-- Source `validate_outline`: size outside `[0,5]` is replaced by 1; a
colour failing the shallow check is replaced by `"#000000"`.  Never fails. -/
def validate_outline (outline_enabled : Bool) (outline_size : ℤ) (outline_color : String) :
    Bool × ℤ × String :=
  let s := if outline_size < 0 ∨ outline_size > 5 then 1 else outline_size
  let c := if ¬ (startsWithHash outline_color = true) ∨ outline_color.length ≠ 7 then
    "#000000" else outline_color
  (outline_enabled, s, c)

/-- Source `validate_gradient`: a colour failing the shallow check is
replaced by `"#000000"`.  Never fails. -/
def validate_gradient (gradient_enabled : Bool) (gradient_color : String) :
    Bool × String :=
  let c := if ¬ (startsWithHash gradient_color = true) ∨ gradient_color.length ≠ 7 then
    "#000000" else gradient_color
  (gradient_enabled, c)

/-- Source inline line-height validation in `generate_transparent_text`:
`float(line_height)` failures (`none`) and values outside `[1.0, 2.5]`
silently become 1.5. -/
def validate_line_height (line_height : Option ℚ) : ℚ :=
  match line_height with
  | none => 1.5
  | some q => if 1 ≤ q ∧ q ≤ 2.5 then q else 1.5

/-- Model of Python slicing `l[i:j]` (for `0 ≤ i ≤ j`). -/
def pySlice (l : List Char) (i j : ℕ) : List Char :=
  (l.drop i).take (j - i)

/-- Source `hex_to_rgb`: strip ALL leading `#` characters, then parse the
three two-character slices with `int(·, 16)`.  `none` models the uncaught
`ValueError` when a slice is not valid under Python base-16 parsing. -/
def hex_to_rgb (hex_color : String) : Option (ℤ × ℤ × ℤ) :=
  let t := hex_color.data.dropWhile (· = '#')
  match pyInt16 (pySlice t 0 2), pyInt16 (pySlice t 2 4), pyInt16 (pySlice t 4 6) with
  | some r, some g, some b => some (r, g, b)
  | _, _, _ => none

/-- Spec-side definition, following the spec's words: a colour is well-formed
iff it matches the regex `^#[0-9A-Fa-f]{6}$`. -/
def specColorMatch (s : String) : Bool :=
  (s.length == 7) &&
  (match s.data with | c :: _ => c == '#' | [] => false) &&
  (s.data.drop 1).all (fun c =>
    (48 ≤ c.toNat && c.toNat ≤ 57) || (97 ≤ c.toNat && c.toNat ≤ 102) ||
    (65 ≤ c.toNat && c.toNat ≤ 70))

/-- An RGBA pixel; channels on the 0–255 scale, held as exact rationals
(idealising PIL's fixed-point blending, which agrees exactly at the fully
opaque / fully transparent points used in the theorems). -/
structure Pix where
  r : ℚ
  g : ℚ
  b : ℚ
  a : ℚ
  deriving DecidableEq, Repr

/-- The fully transparent pixel. -/
def transparentPix : Pix := ⟨0, 0, 0, 0⟩

/-- PIL `Image.alpha_composite(bg, fg)`: standard source-over compositing of
`fg` OVER `bg` (the second argument is the upper layer). -/
def alphaComposite (bg fg : Pix) : Pix :=
  let fa := fg.a / 255
  let ba := bg.a / 255
  let oa := fa + ba * (1 - fa)
  if oa = 0 then transparentPix
  else ⟨(fg.r * fa + bg.r * ba * (1 - fa)) / oa,
        (fg.g * fa + bg.g * ba * (1 - fa)) / oa,
        (fg.b * fa + bg.b * ba * (1 - fa)) / oa, oa * 255⟩

/-- An RGBA raster: dimensions plus a pixel function (only coordinates with
`x < w` and `y < h` are meaningful). -/
structure Img where
  w : ℕ
  h : ℕ
  pix : ℕ → ℕ → Pix

/-- A single-channel (`'L'` mode) raster used as a coverage mask. -/
structure MaskImg where
  w : ℕ
  h : ℕ
  pix : ℕ → ℕ → ℕ

/-- `Image.new('L', size, 0)`: the all-zero mask. -/
def emptyMask (w h : ℕ) : MaskImg := ⟨w, h, fun _ _ => 0⟩

/-- Font handles produced by `load_font`: a custom TrueType font, the bundled
Noto Sans CJK default, or `ImageFont.load_default()`.  There is no error
alternative: `load_font` always returns a handle. -/
inductive FontHandle where
  | custom (path : String) (size : ℤ)
  | defaultCJK (size : ℤ)
  | fallbackBitmap
  deriving DecidableEq, Repr

/-- The hard-coded default font path of the source. -/
def default_font_path : String :=
  "/nix/store/a8h57nc89w8wqgg3rqkrw4cxc1x8z7c3-noto-fonts-cjk-2.004/share/fonts/opentype/noto-cjk/NotoSansCJK-Regular.ttc"

/-- A text bounding box as returned by `ImageDraw.textbbox`. -/
structure BBox where
  x0 : ℤ
  y0 : ℤ
  x1 : ℤ
  y1 : ℤ

/-- Oracle record for everything outside the repository: the filesystem and
the PIL primitives (measurement, glyph rasterisation, Gaussian blur,
resampling).  Glyph drawing returns a new raster; measurement does not
depend on the target image, matching PIL. -/
structure Env where
  isfile : String → Bool
  pathExists : String → Bool
  truetypeOk : String → Bool
  textbbox : FontHandle → String → BBox
  drawText : Img → String → ℤ × ℤ → FontHandle → String → Img
  drawTextMask : MaskImg → String → ℤ × ℤ → FontHandle → MaskImg
  gaussianBlur : ℤ → Img → Img
  resample : Img → ℤ → ℤ → Img

/-- Source `load_font`: a custom path that exists is loaded as a TrueType
font; otherwise the bundled default is tried; any failure (including a
TrueType load error, via the enclosing `except`) degrades to
`ImageFont.load_default()`.  This function is total — it never raises. -/
def load_font (env : Env) (font_name : String) (font_size : ℤ) : FontHandle :=
  if env.isfile font_name then
    (if env.truetypeOk font_name then .custom font_name font_size else .fallbackBitmap)
  else if env.pathExists default_font_path then
    (if env.truetypeOk default_font_path then .defaultCJK font_size else .fallbackBitmap)
  else .fallbackBitmap

/-- The un-blurred shadow layer of `apply_shadow`: a fresh transparent RGBA
image onto which the flat shadow colour is pasted through the coverage mask
(`shadow.paste((r,g,b,255), mask=text_mask)`; PIL blends proportionally to
the mask value). -/
def shadow_layer (w h : ℕ) (rgb : ℤ × ℤ × ℤ) (text_mask : MaskImg) : Img :=
  ⟨w, h, fun x y =>
    let m : ℚ := (text_mask.pix x y : ℚ) / 255
    ⟨(rgb.1 : ℚ) * m, (rgb.2.1 : ℚ) * m, (rgb.2.2 : ℚ) * m, 255 * m⟩⟩

/-- Source `apply_shadow`: colour the coverage mask with the shadow colour,
Gaussian-blur it, and alpha-composite the result OVER the incoming canvas.
`none` models the uncaught `ValueError` of `hex_to_rgb` on a colour that
passed the shallow validation but is not parseable base-16. -/
def apply_shadow (env : Env) (img : Img) (text_mask : MaskImg) (shadow_blur : ℤ)
    (shadow_color : String) : Option Img :=
  match hex_to_rgb shadow_color with
  | none => none
  | some rgb =>
    let shadow := env.gaussianBlur shadow_blur (shadow_layer img.w img.h rgb text_mask)
    some ⟨img.w, img.h, fun x y => alphaComposite (img.pix x y) (shadow.pix x y)⟩

/-- Per-channel gradient interpolation of `apply_gradient`:
`int(start + (end - start) * (y / h))` computed exactly (the value lies
in `[0, 255]`, so Python's truncation toward zero is the floor, i.e.
`Int.fdiv`). -/
def gradChannel (s e : ℤ) (y h : ℕ) : ℤ := s + Int.fdiv ((e - s) * (y : ℤ)) (h : ℤ)

/-- `draw.line([(0, y), (w, y)])`: overwrite raster row `y` (the whole row;
columns beyond the width are never observed). -/
def drawHLine (im : Img) (y : ℕ) (p : Pix) : Img :=
  ⟨im.w, im.h, fun a b => if b = y then p else im.pix a b⟩

/-- The full-canvas vertical gradient image built by the row loop of
`apply_gradient`, before the mask is applied. -/
def gradientBase (w h : ℕ) (srgb ergb : ℤ × ℤ × ℤ) : Img :=
  (List.range h).foldl
    (fun im y => drawHLine im y
      ⟨(gradChannel srgb.1 ergb.1 y h : ℚ), (gradChannel srgb.2.1 ergb.2.1 y h : ℚ),
       (gradChannel srgb.2.2 ergb.2.2 y h : ℚ), 255⟩)
    ⟨w, h, fun _ _ => transparentPix⟩

/-- Source `apply_gradient`: build the full-canvas vertical gradient, set its
alpha channel to the coverage mask (`putalpha`), and alpha-composite it OVER
the incoming canvas.  `none` models the uncaught `ValueError` of
`hex_to_rgb`. -/
def apply_gradient (img : Img) (text_mask : MaskImg) (color gradient_color : String) :
    Option Img :=
  match hex_to_rgb color, hex_to_rgb gradient_color with
  | some srgb, some ergb =>
    let base := gradientBase img.w img.h srgb ergb
    let grad : Img :=
      ⟨base.w, base.h, fun x y => { base.pix x y with a := (text_mask.pix x y : ℚ) }⟩
    some ⟨img.w, img.h, fun x y => alphaComposite (img.pix x y) (grad.pix x y)⟩
  | _, _ => none

/-- Model of Python `range(a, b)`. -/
def pyRange (a b : ℤ) : List ℤ :=
  (List.range (b - a).toNat).map (fun (i : ℕ) => a + (i : ℤ))

/-- The offset pairs visited by the nested loops of `apply_outline`:
`(dx, dy)` ranging over `range(-size, size+1)²` with `(0, 0)` skipped, in
source iteration order. -/
def outlineOffsets (outline_size : ℤ) : List (ℤ × ℤ) :=
  (pyRange (-outline_size) (outline_size + 1)).flatMap (fun dx =>
    (pyRange (-outline_size) (outline_size + 1)).filterMap (fun dy =>
      if dx = 0 ∧ dy = 0 then none else some (dx, dy)))

/-- Source `apply_outline`: stamp the line text once per offset pair in
`outlineOffsets`, in the outline colour. -/
def apply_outline (env : Env) (img : Img) (text : String) (x y : ℤ)
    (font : FontHandle) (outline_size : ℤ) (outline_color : String) : Img :=
  (outlineOffsets outline_size).foldl
    (fun im d => env.drawText im text (x + d.1, y + d.2) font outline_color) img

/-- Python floor division `//` on integers. -/
def pyFloorDiv (a b : ℤ) : ℤ := Int.fdiv a b

/-- Python `int(·)` on a float/rational: truncation toward zero. -/
def pyInt (q : ℚ) : ℤ := if q < 0 then ⌈q⌉ else ⌊q⌋

/-- The fixed supersampling ratio of the source (`scale_factor = 4`). -/
def scale_factor : ℤ := 4

/-- The line list of `generate_transparent_text`:
`[line.strip() for line in text.split('\n')]` applied to the validated
text. -/
def render_lines (text : String) : List String :=
  (pySplitChar '\n' text.data).map (fun l => String.mk (pyStripL l))

/-- Per-line `(width, height)` as measured by `textbbox` at the supersampled
font (`width = bbox[2] - bbox[0]`, `height = bbox[3] - bbox[1]`). -/
def line_sizes_of (env : Env) (font : FontHandle) (lines : List String) : List (ℤ × ℤ) :=
  lines.map (fun l =>
    let b := env.textbbox font l
    (b.x1 - b.x0, b.y1 - b.y0))

/-- `total_width`: running maximum of line widths, starting from 0. -/
def total_width_of (sizes : List (ℤ × ℤ)) : ℤ :=
  sizes.foldl (fun acc s => max acc s.1) 0

/-- `total_height`: sum of `height * line_height` over the lines. -/
def total_height_of (sizes : List (ℤ × ℤ)) (lh : ℚ) : ℚ :=
  sizes.foldl (fun acc s => acc + (s.2 : ℚ) * lh) 0

/-- The horizontal position of a line: `x = (img_width - width) // 2`, with
the width re-measured inside the drawing loop. -/
def xpos (env : Env) (font : FontHandle) (img_width : ℤ) (line : String) : ℤ :=
  pyFloorDiv (img_width - ((env.textbbox font line).x1 - (env.textbbox font line).x0)) 2

/-- State threaded through the per-line loop of `generate_transparent_text`.
`imgVar` is the Python variable `img` (rebound to a fresh composite by the
shadow and gradient passes), while `canvasObj` is the canvas OBJECT that the
`draw` handle created before the loop keeps writing into; `aliased` records
whether the two still coincide.  `shadowMasks`/`gradientMasks` are ghost
observations recording the exact coverage mask consumed by each shadow /
gradient pass. -/
structure LoopState where
  imgVar : Img
  canvasObj : Img
  aliased : Bool
  text_mask : MaskImg
  y : ℤ
  shadowMasks : List MaskImg
  gradientMasks : List MaskImg

/-- A mutation through the stale `draw` handle: it writes into the canvas
object, which is visible through `imgVar` only while the two are still
aliased. -/
def mutateCanvas (st : LoopState) (f : Img → Img) : LoopState :=
  let b := f st.canvasObj
  { st with canvasObj := b, imgVar := if st.aliased then b else st.imgVar }

/-- One iteration of the per-line loop of `generate_transparent_text`:
re-measure the line, centre it, then shadow pass (mask drawn into the
current mask, composite, mask reset), outline pass (stale `draw` handle),
and gradient-or-plain fill (gradient draws into the current mask, which is
NOT reset afterwards), finally advance `y`. -/
def lineStep (env : Env) (scaled_font : FontHandle) (img_width : ℤ) (W H : ℕ)
    (se : Bool) (sb : ℤ) (sc : String) (oe : Bool) (os : ℤ) (oc : String)
    (ge : Bool) (gc : String) (color : String) (lh : ℚ)
    (st : LoopState) (entry : String × ℤ × ℤ) : Except RenderErr LoopState :=
  let line := entry.1
  let hgt := entry.2.2
  let x := xpos env scaled_font img_width line
  let st1res : Except RenderErr LoopState :=
    if se then
      let m := env.drawTextMask st.text_mask line (x, st.y) scaled_font
      match apply_shadow env st.imgVar m (sb * scale_factor) sc with
      | some i2 => .ok ⟨i2, st.canvasObj, false, emptyMask W H, st.y, st.shadowMasks ++ [m], st.gradientMasks⟩
      | none => .error .hexColorInvalid
    else .ok st
  match st1res with
  | .error e => .error e
  | .ok st1 =>
    let st2 := if oe then
        mutateCanvas st1
          (fun im => apply_outline env im line x st1.y scaled_font (os * scale_factor) oc)
      else st1
    let st3res : Except RenderErr LoopState :=
      if ge then
        let m := env.drawTextMask st2.text_mask line (x, st2.y) scaled_font
        match apply_gradient st2.imgVar m color gc with
        | some i3 => .ok ⟨i3, st2.canvasObj, false, m, st2.y, st2.shadowMasks, st2.gradientMasks ++ [m]⟩
        | none => .error .hexColorInvalid
      else .ok (mutateCanvas st2 (fun im => env.drawText im line (x, st2.y) scaled_font color))
    match st3res with
    | .error e => .error e
    | .ok st3 => .ok { st3 with y := st3.y + pyInt ((hgt : ℚ) * lh) }

/-- Result of a successful render: the supersampled canvas (the final value
of the Python variable `img`) with its recorded dimensions, the downsampled
output dimensions and image, the final coverage mask, and the ghost lists of
masks consumed by the effect passes. -/
structure RenderResult where
  canvas : Img
  text_mask : MaskImg
  canvasW : ℤ
  canvasH : ℤ
  finalW : ℤ
  finalH : ℤ
  finalImg : Img
  shadowMasks : List MaskImg
  gradientMasks : List MaskImg

/-- Source `generate_transparent_text`: validation, font resolution (twice),
per-line measurement at the supersampled size, canvas geometry, the per-line
effect loop, and the final downsample.  The saved PNG itself is outside the
model; `finalImg` is the image handed to `img.save`. -/
def generate_transparent_text (env : Env) (text : String) (font_size : Option ℤ)
    (color : String) (font_name : String) (line_height : Option ℚ)
    (shadow_enabled : Bool) (shadow_blur : ℤ) (shadow_color : String)
    (outline_enabled : Bool) (outline_size : ℤ) (outline_color : String)
    (gradient_enabled : Bool) (gradient_color : String) :
    Except RenderErr RenderResult := do
  let text ← validate_text_input text
  let fs ← validate_font_size font_size
  let color ← validate_color color
  let v1 := validate_shadow shadow_enabled shadow_blur shadow_color
  let se := v1.1
  let sb := v1.2.1
  let sc := v1.2.2
  let v2 := validate_outline outline_enabled outline_size outline_color
  let oe := v2.1
  let os := v2.2.1
  let oc := v2.2.2
  let v3 := validate_gradient gradient_enabled gradient_color
  let ge := v3.1
  let gc := v3.2
  let lh := validate_line_height line_height
  let _font := load_font env font_name fs
  let scaled_font := load_font env font_name (fs * scale_factor)
  let lines := render_lines text
  let line_sizes := line_sizes_of env scaled_font lines
  let total_width := total_width_of line_sizes
  let total_height : ℚ := total_height_of line_sizes lh
  let padding : ℤ := 20 * scale_factor
  let shadow_padding : ℤ := if se then sb * 2 * scale_factor else 0
  let outline_padding : ℤ := if oe then os * 2 * scale_factor else 0
  let img_width : ℤ := total_width + padding * 2 + shadow_padding + outline_padding
  let img_height : ℤ :=
    pyInt (total_height + ((padding * 2 + shadow_padding + outline_padding : ℤ) : ℚ))
  let W := img_width.toNat
  let H := img_height.toNat
  let blank : Img := ⟨W, H, fun _ _ => transparentPix⟩
  let init : LoopState := ⟨blank, blank, true, emptyMask W H,
    padding + pyFloorDiv shadow_padding 2 + pyFloorDiv outline_padding 2, [], []⟩
  let fin ← (lines.zip line_sizes).foldlM
    (lineStep env scaled_font img_width W H se sb sc oe os oc ge gc color lh) init
  let final_width := pyFloorDiv img_width scale_factor
  let final_height := pyFloorDiv img_height scale_factor
  pure {
    canvas := fin.imgVar
    text_mask := fin.text_mask
    canvasW := img_width
    canvasH := img_height
    finalW := final_width
    finalH := final_height
    finalImg := env.resample fin.imgVar final_width final_height
    shadowMasks := fin.shadowMasks
    gradientMasks := fin.gradientMasks }

/-- Projection of the raised error, if any. -/
def errOf (e : Except RenderErr RenderResult) : Option RenderErr :=
  match e with
  | .error x => some x
  | .ok _ => none

/-- A concrete test environment: no font file exists (the default font
does); every line measures as a 4×4 box; a text draw paints the six pixels
of column `x`, rows `y … y+5`, in the fill colour (mask draws cover the same
pixels, so canvas drawing and mask drawing are consistent); Gaussian blur is
only ever invoked at radius 0 in the scenarios below, where it is the
identity; resampling is the identity observation. -/
def envA : Env where
  isfile := fun _ => false
  pathExists := fun _ => true
  truetypeOk := fun _ => true
  textbbox := fun _ _ => ⟨0, 0, 4, 4⟩
  drawText := fun im _ p _ c =>
    let rgb := (hex_to_rgb c).getD (0, 0, 0)
    ⟨im.w, im.h, fun a b =>
      if a = p.1.toNat ∧ p.2.toNat ≤ b ∧ b ≤ p.2.toNat + 5 then
        ⟨(rgb.1 : ℚ), (rgb.2.1 : ℚ), (rgb.2.2 : ℚ), 255⟩
      else im.pix a b⟩
  drawTextMask := fun m _ p _ =>
    ⟨m.w, m.h, fun a b =>
      if a = p.1.toNat ∧ p.2.toNat ≤ b ∧ b ≤ p.2.toNat + 5 then 255 else m.pix a b⟩
  gaussianBlur := fun _ im => im
  resample := fun im _ _ => im

/-- The 0×0 transparent image, used only as a dummy value. -/
def blank0 : Img := ⟨0, 0, fun _ _ => transparentPix⟩

/-- A dummy render result, used only as a `match` fallback. -/
def junkResult : RenderResult := ⟨blank0, emptyMask 0 0, 0, 0, 0, 0, blank0, [], []⟩

/-- A concrete successful render with shadow (blur 5) and outline (size 2)
enabled, used by the C6 witness. -/
def renderC6 : Except RenderErr RenderResult :=
  generate_transparent_text envA "Hi" (some 16) "#FF0000" "f" (some 1)
    true 5 "#000000" true 2 "#000000" false "#000000"

/-- The result of `renderC6` (which succeeds). -/
def resultC6 : RenderResult :=
  match renderC6 with
  | .ok r => r
  | .error _ => junkResult

/-- A 2×2 fully transparent image, used by the C7 witness. -/
def imgT2 : Img := ⟨2, 2, fun _ _ => transparentPix⟩

/-- A 2×2 all-255 coverage mask, used by the C7 witness. -/
def maskF2 : MaskImg := ⟨2, 2, fun _ _ => 255⟩

/-- The gradient result on `imgT2` from black to white, used by the C7
witness. -/
def gradOut : Img := (apply_gradient imgT2 maskF2 "#000000" "#FFFFFF").getD blank0

/-- A 1×1 opaque red image, used by the C4 witness. -/
def imgRed : Img := ⟨1, 1, fun _ _ => ⟨255, 0, 0, 255⟩⟩

/-- A 1×1 all-255 coverage mask, used by the C4 witness. -/
def maskFull : MaskImg := ⟨1, 1, fun _ _ => 255⟩

/-- A small concrete loop state, used by the C5 witness. -/
def stC5 : LoopState :=
  ⟨⟨4, 4, fun _ _ => transparentPix⟩, ⟨4, 4, fun _ _ => transparentPix⟩, true,
    emptyMask 4 4, 0, [], []⟩

/-- The mask drawn by the C5 witness's line. -/
def mC5 : MaskImg :=
  envA.drawTextMask stC5.text_mask "A" (xpos envA .fallbackBitmap 4 "A", stC5.y)
    .fallbackBitmap

/-- The gradient composite of the C5 witness. -/
def gradC5 : Img := (apply_gradient stC5.imgVar mC5 "#FF0000" "#FF0000").getD blank0

/-- The shadow composite of the C5 witness. -/
def shadC5 : Img :=
  (apply_shadow envA stC5.imgVar mC5 (0 * scale_factor) "#000000").getD blank0

/-- Unfolding equation for `hexTailVal` on a cons cell. -/
lemma hexTailVal_cons (acc : ℕ) (c : Char) (r : List Char) :
    hexTailVal acc (c :: r) =
      if c = '_' then
        (match r with
         | [] => none
         | d :: r2 =>
           match hexDigitVal d with
           | some v => hexTailVal (acc * 16 + v) r2
           | none => none)
      else
        (match hexDigitVal c with
         | some v => hexTailVal (acc * 16 + v) r
         | none => none) := by
  rw [hexTailVal.eq_def]

/-- Unfolding equation for `hexRunVal` on a cons cell. -/
lemma hexRunVal_cons (c : Char) (r : List Char) :
    hexRunVal (c :: r) =
      (match hexDigitVal c with
       | some v => hexTailVal v r
       | none => none) := by
  rw [hexRunVal.eq_def]

/-- Unfolding equation for `hexAfterSign` on a list of length at least 2. -/
lemma hexAfterSign_cons2 (c x : Char) (rest : List Char) :
    hexAfterSign (c :: x :: rest) =
      if c = '0' ∧ (x = 'x' ∨ x = 'X') then
        (match rest with
         | d :: r => if d = '_' then hexRunVal r else hexRunVal (d :: r)
         | [] => hexRunVal [])
      else hexRunVal (c :: x :: rest) := by
  rw [hexAfterSign.eq_def]

/-- Characterisation of the characters accepted as hexadecimal digits. -/
lemma hexDigitVal_isSome_iff {c : Char} :
    (hexDigitVal c).isSome = true ↔
      (48 ≤ c.toNat ∧ c.toNat ≤ 57) ∨ (97 ≤ c.toNat ∧ c.toNat ≤ 102) ∨
      (65 ≤ c.toNat ∧ c.toNat ≤ 70) := by
  unfold hexDigitVal
  split_ifs with h1 h2 h3 <;> simp <;> omega

/-- A hexadecimal digit is not whitespace for `int(·, 16)`. -/
lemma hexChar_not_space {c : Char} (h : (hexDigitVal c).isSome = true) :
    pyIntIsSpace c = false := by
  rw [hexDigitVal_isSome_iff] at h
  simp [pyIntIsSpace]
  omega

/-- A hexadecimal digit differs from any character outside the three digit
ranges (stated via its code point). -/
lemma hexChar_ne {c : Char} (h : (hexDigitVal c).isSome = true) (d : Char)
    (hd : d.toNat < 48 ∨ (57 < d.toNat ∧ d.toNat < 65) ∨ (70 < d.toNat ∧ d.toNat < 97) ∨
      102 < d.toNat) : c ≠ d := by
  rw [hexDigitVal_isSome_iff] at h
  intro he
  subst he
  omega

/-- On an all-hex-digit tail, the digit-run continuation succeeds. -/
lemma hexTailVal_isSome {l : List Char} (h : ∀ c ∈ l, (hexDigitVal c).isSome = true) :
    ∀ acc : ℕ, (hexTailVal acc l).isSome = true := by
  induction l with
  | nil => intro acc; rfl
  | cons c r ih =>
    intro acc
    have hc := h c (by simp)
    have hu : c ≠ '_' := hexChar_ne hc '_' (by right; right; left; constructor <;> decide)
    obtain ⟨v, hv⟩ := Option.isSome_iff_exists.mp hc
    rw [hexTailVal_cons, if_neg hu, hv]
    exact ih (fun d hd => h d (by simp [hd])) _

/-- On a nonempty all-hex-digit list, the digit-run parse succeeds. -/
lemma hexRunVal_isSome {l : List Char} (hne : l ≠ [])
    (h : ∀ c ∈ l, (hexDigitVal c).isSome = true) : (hexRunVal l).isSome = true := by
  cases l with
  | nil => exact absurd rfl hne
  | cons c r =>
    have hc := h c (by simp)
    obtain ⟨v, hv⟩ := Option.isSome_iff_exists.mp hc
    rw [hexRunVal_cons, hv]
    exact hexTailVal_isSome (fun d hd => h d (by simp [hd])) _

/-- `dropWhile` of the whitespace predicate is the identity on an
all-hex-digit list. -/
lemma allHex_dropWhile {l : List Char} (h : ∀ c ∈ l, (hexDigitVal c).isSome = true) :
    l.dropWhile pyIntIsSpace = l := by
  cases l with
  | nil => rfl
  | cons c r => rw [List.dropWhile_cons, hexChar_not_space (h c (by simp))]; simp

/-- On a nonempty all-hex-digit list, the prefix dispatch reduces to a plain
digit run and succeeds. -/
lemma hexAfterSign_isSome {l : List Char} (hne : l ≠ [])
    (h : ∀ c ∈ l, (hexDigitVal c).isSome = true) : (hexAfterSign l).isSome = true := by
  match l with
  | [] => exact absurd rfl hne
  | [c] =>
    rw [show hexAfterSign [c] = hexRunVal [c] from rfl]
    exact hexRunVal_isSome (by simp) h
  | c :: x :: rest =>
    have hx := h x (by simp)
    have hx1 : x ≠ 'x' := hexChar_ne hx 'x' (by right; right; right; decide)
    have hx2 : x ≠ 'X' := hexChar_ne hx 'X' (by right; right; left; constructor <;> decide)
    rw [hexAfterSign_cons2, if_neg (by rintro ⟨-, hx' | hx'⟩ <;> [exact hx1 hx'; exact hx2 hx'])]
    exact hexRunVal_isSome (by simp) h

/-- Python `int(·, 16)` succeeds on every nonempty string of plain hex
digits. -/
lemma pyInt16_allHex {l : List Char} (hne : l ≠ [])
    (h : ∀ c ∈ l, (hexDigitVal c).isSome = true) : (pyInt16 l).isSome = true := by
  have h2 : ∀ c ∈ l.reverse, (hexDigitVal c).isSome = true := by
    intro c hc; exact h c (List.mem_reverse.mp hc)
  unfold pyInt16
  rw [allHex_dropWhile h, allHex_dropWhile h2, List.reverse_reverse]
  cases l with
  | nil => exact absurd rfl hne
  | cons c r =>
    have hc := h c (by simp)
    have hplus : c ≠ '+' := hexChar_ne hc '+' (by left; decide)
    have hminus : c ≠ '-' := hexChar_ne hc '-' (by left; decide)
    simp only [if_neg hplus, if_neg hminus]
    obtain ⟨v, hv⟩ := Option.isSome_iff_exists.mp (hexAfterSign_isSome (l := c :: r) (by simp) h)
    rw [hv]
    rfl

/-- C8 (amended): every string matching `^#[0-9A-Fa-f]{6}$` is accepted by
`validate_color` (and returned unchanged), and every string failing the
shallow shape check (no leading `#`, or length ≠ 7) is rejected with
`ColorInvalid`.  The original claim's "if and only if" fails: the hex check
is Python `int(color[1:], 16)`, which also accepts sign characters, an
`0x`/`0X` prefix, underscores and surrounding whitespace, so some length-7
strings starting with `#` that do NOT match the regex are accepted — see the
counterexample `"#0x1234"`. -/
theorem C8_amended_color_validation (c : String) :
    (specColorMatch c = true → validate_color c = .ok c) ∧
    ((¬ startsWithHash c = true ∨ c.length ≠ 7) → validate_color c = .error .colorInvalid) := by
  constructor
  · intro h
    unfold specColorMatch at h
    simp only [Bool.and_eq_true, beq_iff_eq] at h
    obtain ⟨⟨hlen, hhead⟩, hall⟩ := h
    have hsw : startsWithHash c = true := by
      unfold startsWithHash
      cases hd : c.data with
      | nil => rw [hd] at hhead; simp at hhead
      | cons a r =>
        rw [hd] at hhead
        simp only at hhead
        simp only [beq_iff_eq] at hhead
        simp [hhead]
    have hdlen : c.data.length = 7 := hlen
    have hne : c.data.drop 1 ≠ [] := by
      intro he
      have := congrArg List.length he
      simp [hdlen] at this
    have hall2 : ∀ d ∈ c.data.drop 1, (hexDigitVal d).isSome = true := by
      intro d hd
      rw [hexDigitVal_isSome_iff]
      have := List.all_eq_true.mp hall d hd
      simp only [Bool.or_eq_true, Bool.and_eq_true, decide_eq_true_eq] at this
      tauto
    unfold validate_color
    rw [if_neg (by push_neg; exact ⟨hsw, hlen⟩)]
    rw [if_pos (pyInt16_allHex hne hall2)]
  · intro h
    unfold validate_color
    rw [if_pos h]

/-- C8 counterexample: `"#0x1234"` is accepted by `validate_color` (Python
`int("0x1234", 16)` succeeds because of the `0x` prefix) yet does not match
the regex `^#[0-9A-Fa-f]{6}$`, refuting the claimed equivalence. -/
theorem C8_counterexample :
    validate_color "#0x1234" = .ok "#0x1234" ∧ specColorMatch "#0x1234" = false :=
  ⟨rfl, rfl⟩

/-- C8 witness: the amended theorem applied at accepted `"#A1b2C3"` and at
rejected `"red"`. -/
theorem C8_witness :
    specColorMatch "#A1b2C3" = true ∧ validate_color "#A1b2C3" = .ok "#A1b2C3" ∧
    (¬ startsWithHash "red" = true ∨ ("red" : String).length ≠ 7) ∧
    validate_color "red" = .error .colorInvalid :=
  ⟨by decide, (C8_amended_color_validation "#A1b2C3").1 (by decide),
   by decide, (C8_amended_color_validation "red").2 (by decide)⟩

/-- C9 (amended): text validation succeeds exactly when the trimmed text is
nonempty AND the RAW text has length at most 100 (the source checks
`len(text) > 100` before stripping, not the post-trim length as the claim
says); on success the trimmed text is returned.  See the counterexample for
a text whose post-trim length is 100 (within the claimed `[1,100]`) that is
nevertheless rejected. -/
theorem C9_amended_text_validation (s : String) :
    ((validate_text_input s).isOk = true ↔
      ((pyStrip s).data.isEmpty = false ∧ s.length ≤ 100)) ∧
    (∀ t, validate_text_input s = .ok t → t = pyStrip s) := by
  unfold validate_text_input
  split_ifs with h1 h2
  · constructor
    · simp [Except.isOk, Except.toBool, h1]
    · intro t ht
      exact absurd ht (by simp)
  · constructor
    · simp [Except.isOk, Except.toBool]
      omega
    · intro t ht
      exact absurd ht (by simp)
  · constructor
    · simp [Except.isOk, Except.toBool]
      constructor
      · simpa using h1
      · omega
    · intro t ht
      simpa using ht.symm

/-- C9 counterexample: 100 copies of `a` followed by one space.  Its
post-trim length is 100, inside the claimed success range `[1,100]`, yet
`validate_text_input` rejects it because the raw length 101 exceeds the cap
before trimming. -/
theorem C9_counterexample :
    1 ≤ (pyStrip (String.mk (List.replicate 100 'a' ++ [' ']))).length ∧
    (pyStrip (String.mk (List.replicate 100 'a' ++ [' ']))).length ≤ 100 ∧
    validate_text_input (String.mk (List.replicate 100 'a' ++ [' '])) =
      .error .textInvalid :=
  ⟨by decide, by decide, by rfl⟩

/-- C9 witness: the amended theorem applied at `"  hi  "`. -/
theorem C9_witness :
    (validate_text_input "  hi  ").isOk = true ∧ pyStrip "  hi  " = "hi" :=
  ⟨(C9_amended_text_validation "  hi  ").1.mpr ⟨by decide, by decide⟩, by decide⟩

/-- Membership in the model of Python `range(a, b)`. -/
lemma mem_pyRange {a b x : ℤ} : x ∈ pyRange a b ↔ a ≤ x ∧ x < b := by
  unfold pyRange
  simp only [List.mem_map, List.mem_range]
  constructor
  · rintro ⟨i, hi, rfl⟩
    omega
  · rintro ⟨h1, h2⟩
    exact ⟨(x - a).toNat, by omega, by omega⟩

set_option maxRecDepth 16384 in

/-- C3 (amended): `apply_outline` stamps the line text exactly at the offset
pairs `(dx, dy) ∈ [-s, s]² \ {(0,0)}` for ITS size argument `s` — but
`generate_transparent_text` calls it with `s = outline_size × scale_factor`,
i.e. four times the validated size.  With the validated size capped at 5 the
effective `s` reaches 20, so a line incurs up to `41² - 1 = 1680` stamped
draw calls, not the claimed 120. -/
theorem C3_amended_outline_offsets :
    (∀ s : ℤ, 0 ≤ s → ∀ dx dy : ℤ,
      ((dx, dy) ∈ outlineOffsets s ↔
        (-s ≤ dx ∧ dx ≤ s ∧ -s ≤ dy ∧ dy ≤ s ∧ ¬(dx = 0 ∧ dy = 0)))) ∧
    (∀ osz : ℤ, 0 ≤ osz → osz ≤ 5 →
      (outlineOffsets (osz * scale_factor)).length ≤ 1680) := by
  constructor
  · intro s hs dx dy
    unfold outlineOffsets
    simp only [List.mem_flatMap, List.mem_filterMap, mem_pyRange]
    constructor
    · rintro ⟨dx0, hdx0, dy0, hdy0, hif⟩
      by_cases hz : dx0 = 0 ∧ dy0 = 0
      · rw [if_pos hz] at hif
        exact absurd hif (by simp)
      · rw [if_neg hz] at hif
        obtain ⟨h1, h2⟩ := Prod.mk.injEq .. ▸ Option.some.injEq .. ▸ hif
        refine ⟨by omega, by omega, by omega, by omega, ?_⟩
        intro hc
        exact hz ⟨by omega, by omega⟩
    · rintro ⟨h1, h2, h3, h4, h5⟩
      refine ⟨dx, ⟨h1, by omega⟩, dy, ⟨h3, by omega⟩, ?_⟩
      rw [if_neg h5]
  · intro osz h0 h5
    interval_cases osz <;> decide

set_option maxRecDepth 16384 in

/-- C3 counterexample: the validated outline size 5 is passed through
unchanged, and the outline pass of `generate_transparent_text` then folds
over `outlineOffsets (5 × scale_factor)`, performing 1680 draw calls per
line — more than the claimed bound of 120. -/
theorem C3_counterexample :
    (validate_outline true 5 "#000000").2.1 = 5 ∧
    (outlineOffsets ((validate_outline true 5 "#000000").2.1 * scale_factor)).length = 1680 ∧
    ¬ ((outlineOffsets ((validate_outline true 5 "#000000").2.1 * scale_factor)).length ≤ 120) :=
  ⟨by decide, by decide, by decide⟩

set_option maxRecDepth 16384 in

/-- C3 witness: the amended theorem applied at size 2: the offset `(1, 0)`
is stamped, `(0, 0)` is not, and the stamp count bound holds at the
validated maximum. -/
theorem C3_witness :
    ((1, 0) ∈ outlineOffsets 2 ↔
      (-2 ≤ (1 : ℤ) ∧ (1 : ℤ) ≤ 2 ∧ -2 ≤ (0 : ℤ) ∧ (0 : ℤ) ≤ 2 ∧
        ¬((1 : ℤ) = 0 ∧ (0 : ℤ) = 0))) ∧
    (outlineOffsets (5 * scale_factor)).length ≤ 1680 :=
  ⟨C3_amended_outline_offsets.1 2 (by decide) 1 0,
   C3_amended_outline_offsets.2 5 (by decide) (by decide)⟩

/-- Bind of a success in `Except` reduces to the continuation. -/
lemma except_bind_ok {ε α β : Type} (a : α) (f : α → Except ε β) :
    (Except.ok a >>= f : Except ε β) = f a := rfl

/-- Bind of an error in `Except` propagates the error. -/
lemma except_bind_err {ε α β : Type} (e : ε) (f : α → Except ε β) :
    (Except.error e >>= f : Except ε β) = Except.error e := rfl

/-- A successful `Except` value is `ok` of something. -/
lemma except_isOk_exists {ε α : Type} {x : Except ε α} (h : x.isOk = true) :
    ∃ a, x = .ok a := by
  cases x with
  | error e => simp [Except.isOk, Except.toBool] at h
  | ok a => exact ⟨a, rfl⟩

/-- A monadic fold over `Except` succeeds when every step does. -/
lemma foldlM_except_isOk {α β ε : Type} (f : β → α → Except ε β) (l : List α)
    (hf : ∀ b a, (f b a).isOk = true) : ∀ b, (List.foldlM f b l).isOk = true := by
  induction l with
  | nil => intro b; rfl
  | cons a l ih =>
    intro b
    rw [List.foldlM_cons]
    obtain ⟨b2, hb2⟩ := except_isOk_exists (hf b a)
    rw [hb2, except_bind_ok]
    exact ih b2

/-- Binding a success into a `pure` continuation stays successful. -/
lemma except_bind_pure_isOk {ε α β : Type} (x : Except ε α) (g : α → β)
    (hx : x.isOk = true) : (x >>= fun a => pure (g a) : Except ε β).isOk = true := by
  obtain ⟨a, ha⟩ := except_isOk_exists hx
  rw [ha, except_bind_ok]
  rfl

/-- A loop iteration never fails when gradient is disabled and (if shadow is
enabled) the validated shadow colour parses as hex. -/
lemma lineStep_isOk (env : Env) (sf : FontHandle) (iw : ℤ) (W H : ℕ) (se : Bool)
    (sb : ℤ) (sc : String) (oe : Bool) (os : ℤ) (oc gc color : String) (lh : ℚ)
    (hsc : se = true → (hex_to_rgb sc).isSome = true)
    (st : LoopState) (e : String × ℤ × ℤ) :
    (lineStep env sf iw W H se sb sc oe os oc false gc color lh st e).isOk = true := by
  cases se with
  | false => rfl
  | true =>
    obtain ⟨rgb, hrgb⟩ := Option.isSome_iff_exists.mp (hsc rfl)
    simp only [lineStep, apply_shadow, hrgb]
    rfl

/-- `validate_color` returns its input unchanged on success. -/
lemma validate_color_ok {c c' : String} (h : validate_color c = .ok c') : c' = c := by
  unfold validate_color at h
  split_ifs at h <;>
    first
      | (injection h with h3; exact h3.symm)
      | exact absurd h (by simp)

/-- `validate_text_input` returns the stripped text on success. -/
lemma validate_text_ok {s t : String} (h : validate_text_input s = .ok t) :
    t = pyStrip s := by
  unfold validate_text_input at h
  split_ifs at h <;>
    first
      | (injection h with h2; exact h2.symm)
      | exact absurd h (by simp)

/-- `validate_font_size` succeeds exactly on in-range integers, returning
them unchanged. -/
lemma validate_font_size_ok {v : Option ℤ} {n : ℤ} (h : validate_font_size v = .ok n) :
    v = some n := by
  cases v with
  | none => exact absurd h (by simp [validate_font_size])
  | some m =>
    rw [show validate_font_size (some m) =
      (if 8 ≤ m ∧ m ≤ 72 then Except.ok m else Except.error .fontSizeInvalid) from rfl] at h
    split_ifs at h <;>
      first
        | (injection h with h3; rw [h3])
        | exact absurd h (by simp)

/-- The full pipeline succeeds whenever text, font size and primary colour
validate, both shadow-failure sources are ruled out (gradient disabled, and
the validated shadow colour parseable when shadow is on). -/
lemma generate_isOk (env : Env) (text : String) (fsn : Option ℤ)
    (color fname : String) (lhq : Option ℚ) (seb : Bool) (sbz : ℤ) (scs : String)
    (osz : ℤ) (oeb : Bool) (ocs gcs : String)
    (ht : (validate_text_input text).isOk = true)
    (hf : (validate_font_size fsn).isOk = true)
    (hc : (validate_color color).isOk = true)
    (hsc : seb = true → (hex_to_rgb (validate_shadow seb sbz scs).2.2).isSome = true) :
    (generate_transparent_text env text fsn color fname lhq
      seb sbz scs oeb osz ocs false gcs).isOk = true := by
  obtain ⟨t, ht'⟩ := except_isOk_exists ht
  obtain ⟨fs, hf'⟩ := except_isOk_exists hf
  obtain ⟨c', hc'⟩ := except_isOk_exists hc
  simp only [generate_transparent_text, ht', hf', hc', except_bind_ok]
  refine except_bind_pure_isOk _ _ ?_
  refine foldlM_except_isOk _ _ (fun st e => ?_) _
  exact lineStep_isOk _ _ _ _ _ _ _ _ _ _ _ _ _ _ (fun hse => hsc hse) st e

/-- C10 (confirmed): a `shadow_blur` outside `[0,20]` is silently replaced
by 5, an `outline_size` outside `[0,5]` by 1, and an absent/out-of-range
`line_height` by 1.5 — the validators are total functions, so none of this
raises — and the whole render (geometry included) is literally the render
one would get from the clamped default values. -/
theorem C10_clamping (env : Env) (text : String) (fsn : Option ℤ)
    (color fname scs ocs gcs : String) (b osz : ℤ) (lq : Option ℚ)
    (e eo : Bool) (sc oc : String)
    (hb : b < 0 ∨ 20 < b) (ho : osz < 0 ∨ 5 < osz)
    (hl : ∀ q, lq = some q → q < 1 ∨ 2.5 < q) :
    (validate_shadow e b sc).2.1 = 5 ∧
    (validate_outline eo osz oc).2.1 = 1 ∧
    validate_line_height lq = 1.5 ∧
    generate_transparent_text env text fsn color fname lq true b scs true osz ocs false gcs =
      generate_transparent_text env text fsn color fname (some 1.5) true 5 scs true 1 ocs
        false gcs := by
  have h1 : ∀ s : String, validate_shadow true b s = validate_shadow true 5 s := by
    intro s
    simp only [validate_shadow]
    rw [if_pos hb]
    simp
  have h2 : ∀ s : String, validate_outline true osz s = validate_outline true 1 s := by
    intro s
    simp only [validate_outline]
    rw [if_pos ho]
    simp
  have h3a : validate_line_height lq = 1.5 := by
    cases lq with
    | none => rfl
    | some q =>
      have hq := hl q rfl
      simp only [validate_line_height]
      rw [if_neg (by rintro ⟨ha, hb2⟩; rcases hq with h | h <;> linarith)]
  have h3b : validate_line_height (some 1.5) = 1.5 := by
    simp only [validate_line_height]
    rw [if_pos (by norm_num)]
  refine ⟨?_, ?_, h3a, ?_⟩
  · show (if b < 0 ∨ b > 20 then (5 : ℤ) else b) = 5
    rw [if_pos hb]
  · show (if osz < 0 ∨ osz > 5 then (1 : ℤ) else osz) = 1
    rw [if_pos ho]
  · simp only [generate_transparent_text, h1, h2, h3a, h3b]

/-- C10 witness: the claim theorem applied at `shadow_blur = 25`,
`outline_size = -1`, `line_height = 0.2` with the concrete environment. -/
theorem C10_witness :
    (validate_shadow true 25 "#000000").2.1 = 5 ∧
    (validate_outline true (-1) "#000000").2.1 = 1 ∧
    validate_line_height (some (1/5)) = 1.5 ∧
    generate_transparent_text envA "Hi" (some 16) "#FF0000" "f" (some (1/5))
        true 25 "#000000" true (-1) "#000000" false "#000000" =
      generate_transparent_text envA "Hi" (some 16) "#FF0000" "f" (some 1.5)
        true 5 "#000000" true 1 "#000000" false "#000000" :=
  C10_clamping envA "Hi" (some 16) "#FF0000" "f" "#000000" "#000000" "#000000"
    25 (-1) (some (1/5)) true true "#000000" "#000000"
    (by norm_num) (by norm_num)
    (fun q hq => by injection hq with h; rw [← h]; norm_num)

/-- C1 (corrected): a font identifier whose path does not exist on disk does
NOT make the render fail — there is no `FontNotFound` error anywhere in the
core (`RenderErr` lists every raise site).  `load_font` silently falls back
to the bundled default font or to the built-in bitmap font, and the render
proceeds to canvas allocation and succeeds (shown here with the effects
disabled and the strict validations passing). -/
theorem C1_amended_font_fallback (env : Env) (text : String) (fsn : Option ℤ)
    (color fname : String) (lhq : Option ℚ) (sbz osz : ℤ) (scs ocs gcs : String)
    (hmiss : env.isfile fname = false)
    (ht : (validate_text_input text).isOk = true)
    (hf : (validate_font_size fsn).isOk = true)
    (hc : (validate_color color).isOk = true) :
    (∀ (sz : ℤ) (p : String) (sz2 : ℤ), load_font env fname sz ≠ FontHandle.custom p sz2) ∧
    (generate_transparent_text env text fsn color fname lhq
      false sbz scs false osz ocs false gcs).isOk = true := by
  constructor
  · intro sz p sz2
    unfold load_font
    rw [hmiss]
    simp only [Bool.false_eq_true, if_false]
    split_ifs <;> simp
  · exact generate_isOk env text fsn color fname lhq false sbz scs osz false ocs gcs
      ht hf hc (by simp)

/-- C1 counterexample: in an environment where no font file exists at the
requested path, the render succeeds end to end — it does not fail with any
font error, contradicting the claimed `FontNotFound` failure before canvas
allocation. -/
theorem C1_counterexample :
    envA.isfile "/no/such/font.ttf" = false ∧
    (generate_transparent_text envA "Hi" (some 16) "#FF0000" "/no/such/font.ttf" (some 1)
      false 5 "#000000" false 1 "#000000" false "#000000").isOk = true :=
  ⟨rfl, by rfl⟩

/-- C1 witness: the amended theorem applied at the concrete environment and
a non-existent font path. -/
theorem C1_witness :
    (∀ (sz : ℤ) (p : String) (sz2 : ℤ),
      load_font envA "/missing.ttf" sz ≠ FontHandle.custom p sz2) ∧
    (generate_transparent_text envA "Hi" (some 16) "#FF0000" "/missing.ttf" (some 1)
      false 5 "#000000" false 1 "#000000" false "#000000").isOk = true :=
  C1_amended_font_fallback envA "Hi" (some 16) "#FF0000" "/missing.ttf" (some 1)
    5 1 "#000000" "#000000" "#000000" rfl (by rfl) (by rfl) (by rfl)

/-- C2 (corrected): only effect colours failing the SHALLOW check (no
leading `#` or length ≠ 7) are silently replaced by `"#000000"` — for those
the render indeed proceeds and succeeds.  But a malformed colour that passes
the shallow check, such as `"#gggggg"`, is kept, and when the effect is
enabled the later `hex_to_rgb` call raises, so the render fails — effect
colour problems CAN raise, refuting the claim (see the counterexample). -/
theorem C2_amended_effect_color (e eo ge2 : Bool) (b osz : ℤ) (s : String)
    (h : ¬ startsWithHash s = true ∨ s.length ≠ 7) :
    (validate_shadow e b s).2.2 = "#000000" ∧
    (validate_outline eo osz s).2.2 = "#000000" ∧
    (validate_gradient ge2 s).2 = "#000000" ∧
    (∀ (env : Env) (text : String) (fsn : Option ℤ) (color fname : String)
       (lhq : Option ℚ) (osz2 : ℤ) (oeb : Bool) (ocs gcs : String),
      (validate_text_input text).isOk = true →
      (validate_font_size fsn).isOk = true →
      (validate_color color).isOk = true →
      (generate_transparent_text env text fsn color fname lhq
        true b s oeb osz2 ocs false gcs).isOk = true) := by
  have hsub : ∀ b2 : ℤ, (validate_shadow true b2 s).2.2 = "#000000" := by
    intro b2
    show (if ¬ startsWithHash s = true ∨ s.length ≠ 7 then "#000000" else s) = "#000000"
    rw [if_pos h]
  refine ⟨?_, ?_, ?_, ?_⟩
  · show (if ¬ startsWithHash s = true ∨ s.length ≠ 7 then "#000000" else s) = "#000000"
    rw [if_pos h]
  · show (if ¬ startsWithHash s = true ∨ s.length ≠ 7 then "#000000" else s) = "#000000"
    rw [if_pos h]
  · show (if ¬ startsWithHash s = true ∨ s.length ≠ 7 then "#000000" else s) = "#000000"
    rw [if_pos h]
  · intro env text fsn color fname lhq osz2 oeb ocs gcs ht hf hc
    refine generate_isOk env text fsn color fname lhq true b s osz2 oeb ocs gcs ht hf hc ?_
    intro hse
    rw [hsub b]
    rfl

/-- C2 counterexample: the shadow colour `"#gggggg"` passes the shallow
validation unchanged (it is NOT replaced by `"#000000"`), and the render
with shadow enabled then fails with the `ValueError` raised inside
`hex_to_rgb` — contradicting both the silent substitution and the claimed
success. -/
theorem C2_counterexample :
    (validate_shadow true 5 "#gggggg").2.2 = "#gggggg" ∧
    hex_to_rgb "#gggggg" = none ∧
    errOf (generate_transparent_text envA "Hi" (some 16) "#FF0000" "f" (some 1)
      true 5 "#gggggg" false 1 "#000000" false "#000000") = some .hexColorInvalid :=
  ⟨by decide, by decide, by rfl⟩

/-- C2 witness: the amended theorem applied at the shallow-malformed colour
`"red"` with the concrete environment. -/
theorem C2_witness :
    (¬ startsWithHash "red" = true ∨ ("red" : String).length ≠ 7) ∧
    (validate_shadow true 5 "red").2.2 = "#000000" ∧
    (generate_transparent_text envA "Hi" (some 16) "#FF0000" "f" (some 1)
      true 5 "red" false 1 "#000000" false "#000000").isOk = true :=
  ⟨by decide,
   (C2_amended_effect_color true true true 5 1 "red" (by decide)).1,
   (C2_amended_effect_color true true true 5 1 "red" (by decide)).2.2.2
     envA "Hi" (some 16) "#FF0000" "f" (some 1) 1 false "#000000" "#000000"
     (by rfl) (by rfl) (by rfl)⟩

/-- Inverting a successful bind-into-pure: the prefix succeeded and the
result is the continuation's value. -/
lemma except_bind_pure_ok_inv {ε α β : Type} {x : Except ε α} {g : α → β} {r : β}
    (h : (x >>= fun a => pure (g a) : Except ε β) = .ok r) : ∃ a, x = .ok a ∧ r = g a := by
  cases x with
  | error e => exact absurd h (by simp [except_bind_err])
  | ok a =>
    rw [except_bind_ok] at h
    injection h with h2
    exact ⟨a, rfl, h2.symm⟩

/-- C6 (confirmed): on every successful render (with the raw effect sizes
inside their clamping ranges, so that the validated values coincide with
them), the supersampled canvas is `total_width + 2×(20×4) + shadow_padding +
outline_padding` wide and `int(total_height + 2×(20×4) + shadow_padding +
outline_padding)` tall, with `shadow_padding = shadow_blur×2×4` when shadow
is enabled (else 0) and `outline_padding = outline_size×2×4` when outline is
enabled (else 0); the output image dimensions are the canvas dimensions
floor-divided by the scale factor 4 (Python `//`). -/
theorem C6_canvas_dimensions (env : Env) (text : String) (n : ℤ)
    (color fname scs ocs gcs : String) (lhq : Option ℚ) (seb oeb : Bool)
    (sb os : ℤ) (r : RenderResult)
    (hsb : 0 ≤ sb ∧ sb ≤ 20) (hos : 0 ≤ os ∧ os ≤ 5)
    (h : generate_transparent_text env text (some n) color fname lhq
      seb sb scs oeb os ocs false gcs = .ok r) :
    r.canvasW =
      total_width_of (line_sizes_of env (load_font env fname (n * scale_factor))
        (render_lines (pyStrip text))) + 20 * scale_factor * 2 +
        (if seb then sb * 2 * scale_factor else 0) +
        (if oeb then os * 2 * scale_factor else 0) ∧
    r.canvasH =
      pyInt (total_height_of (line_sizes_of env (load_font env fname (n * scale_factor))
          (render_lines (pyStrip text))) (validate_line_height lhq) +
        ((20 * scale_factor * 2 + (if seb then sb * 2 * scale_factor else 0) +
          (if oeb then os * 2 * scale_factor else 0) : ℤ) : ℚ)) ∧
    r.finalW = pyFloorDiv r.canvasW scale_factor ∧
    r.finalH = pyFloorDiv r.canvasH scale_factor := by
  cases ht : validate_text_input text with
  | error e =>
    unfold generate_transparent_text at h
    rw [ht, except_bind_err] at h
    exact absurd h (by simp)
  | ok t =>
    have htt : t = pyStrip text := validate_text_ok ht
    by_cases hn : 8 ≤ n ∧ n ≤ 72
    · have hfs : validate_font_size (some n) = .ok n := by
        simp [validate_font_size, hn]
      cases hc : validate_color color with
      | error e =>
        unfold generate_transparent_text at h
        rw [ht, except_bind_ok, hfs, except_bind_ok, hc, except_bind_err] at h
        exact absurd h (by simp)
      | ok c' =>
        have hcc : c' = color := validate_color_ok hc
        have hsb' : (if sb < 0 ∨ sb > 20 then (5 : ℤ) else sb) = sb := if_neg (by omega)
        have hos' : (if os < 0 ∨ os > 5 then (1 : ℤ) else os) = os := if_neg (by omega)
        unfold generate_transparent_text at h
        rw [ht, except_bind_ok, hfs, except_bind_ok, hc, except_bind_ok] at h
        subst htt
        subst hcc
        simp only [validate_shadow, validate_outline, validate_gradient, hsb', hos'] at h
        obtain ⟨fin, hfold, hr⟩ := except_bind_pure_ok_inv h
        subst hr
        exact ⟨rfl, rfl, rfl, rfl⟩
    · have hfs : validate_font_size (some n) = .error .fontSizeInvalid := by
        simp [validate_font_size, hn]
      unfold generate_transparent_text at h
      rw [ht, except_bind_ok, hfs, except_bind_err] at h
      exact absurd h (by simp)

/-- C6 witness: the claim theorem applied to the concrete successful render
`renderC6`. -/
theorem C6_witness :
    renderC6 = .ok resultC6 ∧
    resultC6.canvasW =
      total_width_of (line_sizes_of envA (load_font envA "f" (16 * scale_factor))
        (render_lines (pyStrip "Hi"))) + 20 * scale_factor * 2 +
        (if true then (5 : ℤ) * 2 * scale_factor else 0) +
        (if true then (2 : ℤ) * 2 * scale_factor else 0) ∧
    resultC6.finalW = pyFloorDiv resultC6.canvasW scale_factor ∧
    resultC6.finalH = pyFloorDiv resultC6.canvasH scale_factor :=
  ⟨rfl,
   (C6_canvas_dimensions envA "Hi" 16 "#FF0000" "f" "#000000" "#000000" "#000000"
     (some 1) true true 5 2 resultC6 (by decide) (by decide) rfl).1,
   (C6_canvas_dimensions envA "Hi" 16 "#FF0000" "f" "#000000" "#000000" "#000000"
     (some 1) true true 5 2 resultC6 (by decide) (by decide) rfl).2.2.1,
   (C6_canvas_dimensions envA "Hi" 16 "#FF0000" "f" "#000000" "#000000" "#000000"
     (some 1) true true 5 2 resultC6 (by decide) (by decide) rfl).2.2.2⟩

/-- Source-over compositing with a fully opaque upper layer yields the upper
layer: the lower pixel is completely occluded. -/
lemma alphaComposite_fullAlpha (bg fg : Pix) (h : fg.a = 255) : alphaComposite bg fg = fg := by
  obtain ⟨r0, g0, b0, a0⟩ := fg
  simp only at h
  subst h
  simp only [alphaComposite]
  rw [if_neg (by norm_num)]
  simp only [Pix.mk.injEq]
  norm_num

/-- Source-over compositing with a fully transparent upper layer over an
opaque lower pixel leaves the lower pixel unchanged. -/
lemma alphaComposite_clear (bg fg : Pix) (h : fg.a = 0) (hb : bg.a = 255) :
    alphaComposite bg fg = bg := by
  obtain ⟨r0, g0, b0, a0⟩ := fg
  obtain ⟨r1, g1, b1, a1⟩ := bg
  simp only at h hb
  subst h
  subst hb
  simp only [alphaComposite]
  rw [if_neg (by norm_num)]
  simp only [Pix.mk.injEq]
  norm_num

/-- Pixel view of a single horizontal-line draw. -/
lemma drawHLine_pix (im : Img) (r : ℕ) (p : Pix) (x y : ℕ) :
    (drawHLine im r p).pix x y = if y = r then p else im.pix x y := rfl

/-- Pixel view of a fold of `drawHLine` over `List.range n`: row `y` holds
the row colour when `y < n`. -/
lemma foldl_drawHLine_pix (f : ℕ → Pix) (n : ℕ) (im : Img) (x y : ℕ) :
    ((List.range n).foldl (fun i r => drawHLine i r (f r)) im).pix x y =
      if y < n then f y else im.pix x y := by
  induction n with
  | zero => simp
  | succ n ih =>
    rw [List.range_succ, List.foldl_append]
    simp only [List.foldl_cons, List.foldl_nil]
    rw [drawHLine_pix, ih]
    by_cases hy : y = n
    · subst hy
      rw [if_pos rfl, if_pos (by omega)]
    · rw [if_neg hy]
      by_cases h2 : y < n
      · rw [if_pos h2, if_pos (by omega)]
      · rw [if_neg h2, if_neg (by omega)]

/-- Pixel view of the full-canvas gradient: in bounds, row `y` carries the
per-channel interpolated colour, fully opaque. -/
lemma gradientBase_pix (w h : ℕ) (srgb ergb : ℤ × ℤ × ℤ) (x y : ℕ) (hy : y < h) :
    (gradientBase w h srgb ergb).pix x y =
      ⟨(gradChannel srgb.1 ergb.1 y h : ℚ), (gradChannel srgb.2.1 ergb.2.1 y h : ℚ),
       (gradChannel srgb.2.2 ergb.2.2 y h : ℚ), 255⟩ := by
  unfold gradientBase
  rw [foldl_drawHLine_pix
    (fun r => ⟨(gradChannel srgb.1 ergb.1 r h : ℚ), (gradChannel srgb.2.1 ergb.2.1 r h : ℚ),
      (gradChannel srgb.2.2 ergb.2.2 r h : ℚ), 255⟩) h _ x y]
  rw [if_pos hy]

/-- C7 (confirmed): when both colours parse, `apply_gradient` colours pixel
`(x, y)` by compositing, OVER the canvas pixel, the full-canvas gradient row
colour for absolute row `y` (ratio `y / canvas_height`, independent of the
line's position) with alpha taken from the coverage mask; and for
`color = "#000000"`, `gradient_color = "#FFFFFF"` the per-row channel value
`int(0 + 255·y/h)` is monotone non-decreasing in the row index. -/
theorem C7_gradient (img : Img) (mask : MaskImg) (c gc : String)
    (srgb ergb : ℤ × ℤ × ℤ) (out : Img) (x y : ℕ)
    (hc : hex_to_rgb c = some srgb) (hg : hex_to_rgb gc = some ergb)
    (hout : apply_gradient img mask c gc = some out) (hy : y < img.h) :
    out.pix x y =
      alphaComposite (img.pix x y)
        ⟨(gradChannel srgb.1 ergb.1 y img.h : ℚ), (gradChannel srgb.2.1 ergb.2.1 y img.h : ℚ),
         (gradChannel srgb.2.2 ergb.2.2 y img.h : ℚ), (mask.pix x y : ℚ)⟩ ∧
    (∀ h0 y1 y2 : ℕ, y1 ≤ y2 → gradChannel 0 255 y1 h0 ≤ gradChannel 0 255 y2 h0) := by
  constructor
  · simp only [apply_gradient, hc, hg] at hout
    injection hout with hout2
    subst hout2
    show alphaComposite (img.pix x y) _ = _
    congr 1
    rw [gradientBase_pix img.w img.h srgb ergb x y hy]
  · intro h0 y1 y2 hle
    show (0 : ℤ) + Int.fdiv ((255 - 0) * (y1 : ℤ)) h0 ≤
      (0 : ℤ) + Int.fdiv ((255 - 0) * (y2 : ℤ)) h0
    rcases Nat.eq_zero_or_pos h0 with h00 | h00
    · subst h00
      simp [Int.fdiv_zero]
    · rw [Int.fdiv_eq_ediv _ (by positivity), Int.fdiv_eq_ediv _ (by positivity)]
      have hcast : ((y1 : ℤ)) ≤ (y2 : ℤ) := by exact_mod_cast hle
      have hpos : (0 : ℤ) < (h0 : ℤ) := by exact_mod_cast h00
      exact add_le_add_left (Int.ediv_le_ediv hpos (by nlinarith)) 0

/-- C7 witness: the claim theorem applied to the concrete black-to-white
gradient on a 2×2 canvas, plus a concrete monotonicity instance. -/
theorem C7_witness :
    hex_to_rgb "#000000" = some (0, 0, 0) ∧
    hex_to_rgb "#FFFFFF" = some (255, 255, 255) ∧
    apply_gradient imgT2 maskF2 "#000000" "#FFFFFF" = some gradOut ∧
    gradOut.pix 0 0 =
      alphaComposite (imgT2.pix 0 0)
        ⟨(gradChannel 0 255 0 imgT2.h : ℚ), (gradChannel 0 255 0 imgT2.h : ℚ),
         (gradChannel 0 255 0 imgT2.h : ℚ), (maskF2.pix 0 0 : ℚ)⟩ ∧
    gradChannel 0 255 1 5 ≤ gradChannel 0 255 2 5 :=
  ⟨rfl, rfl, rfl,
   (C7_gradient imgT2 maskF2 "#000000" "#FFFFFF" (0, 0, 0) (255, 255, 255) gradOut 0 0
     rfl rfl rfl (by decide)).1,
   (C7_gradient imgT2 maskF2 "#000000" "#FFFFFF" (0, 0, 0) (255, 255, 255) gradOut 0 0
     rfl rfl rfl (by decide)).2 5 1 2 (by decide)⟩

/-- C4 (amended): the blurred shadow layer is alpha-composited OVER the
canvas drawn so far (`Image.alpha_composite(img, shadow)` puts the shadow on
top), not under it: wherever the blurred layer is fully opaque the previous
canvas pixel is replaced by the shadow pixel, and only where the layer is
fully transparent does the canvas pixel survive.  Within one line the
outline/fill passes draw after (over) the shadow, but content of EARLIER
lines can be occluded by a later line's shadow — see the counterexample. -/
theorem C4_amended_shadow_over (env : Env) (img : Img) (mask : MaskImg) (blur : ℤ)
    (sc : String) (rgb : ℤ × ℤ × ℤ) (x y : ℕ)
    (hc : hex_to_rgb sc = some rgb) :
    (((env.gaussianBlur blur (shadow_layer img.w img.h rgb mask)).pix x y).a = 255 →
      (apply_shadow env img mask blur sc).map (fun o => o.pix x y) =
        some ((env.gaussianBlur blur (shadow_layer img.w img.h rgb mask)).pix x y)) ∧
    (((env.gaussianBlur blur (shadow_layer img.w img.h rgb mask)).pix x y).a = 0 →
      (img.pix x y).a = 255 →
      (apply_shadow env img mask blur sc).map (fun o => o.pix x y) = some (img.pix x y)) := by
  constructor
  · intro ha
    simp only [apply_shadow, hc, Option.map_some']
    rw [alphaComposite_fullAlpha _ _ ha]
  · intro ha hb
    simp only [apply_shadow, hc, Option.map_some']
    rw [alphaComposite_clear _ _ ha hb]

unseal Rat.mul Rat.add Rat.sub Rat.inv Rat.ofScientific in

/-- C4 witness: the amended theorem applied with radius-0 blur (identity in
`envA`) and a fully covered mask: the opaque shadow layer replaces the red
canvas pixel. -/
theorem C4_witness :
    hex_to_rgb "#000000" = some (0, 0, 0) ∧
    ((envA.gaussianBlur 0 (shadow_layer imgRed.w imgRed.h (0, 0, 0) maskFull)).pix 0 0).a =
      255 ∧
    (apply_shadow envA imgRed maskFull 0 "#000000").map (fun o => o.pix 0 0) =
      some ((envA.gaussianBlur 0 (shadow_layer imgRed.w imgRed.h (0, 0, 0) maskFull)).pix 0 0) :=
  ⟨rfl, by decide,
   (C4_amended_shadow_over envA imgRed maskFull 0 "#000000" (0, 0, 0) 0 0 rfl).1 (by decide)⟩

unseal Rat.mul Rat.add Rat.sub Rat.inv Rat.ofScientific in

/-- C4 counterexample: same environment and parameters, shadow enabled with
blur 0 (identity blur) and a constant red gradient fill.  Rendering the
single line `"A"` leaves pixel (80, 80) opaque red; rendering `"A\nB"`
leaves that same pixel opaque black, because line `B`'s shadow pass
composites its opaque layer OVER the canvas (and, the mask not having been
reset after the gradient pass, that layer also covers line `A`'s glyphs).
An already-drawn pixel is thus occluded by a later line's shadow, refuting
the claimed under-compositing. -/
theorem C4_counterexample :
    (generate_transparent_text envA "A" (some 16) "#FF0000" "f" (some 1)
      true 0 "#000000" false 1 "#000000" true "#FF0000").toOption.map
        (fun r => r.canvas.pix 80 80) = some ⟨255, 0, 0, 255⟩ ∧
    (generate_transparent_text envA "A\nB" (some 16) "#FF0000" "f" (some 1)
      true 0 "#000000" false 1 "#000000" true "#FF0000").toOption.map
        (fun r => r.canvas.pix 80 80) = some ⟨0, 0, 0, 255⟩ ∧
    (⟨255, 0, 0, 255⟩ : Pix) ≠ ⟨0, 0, 0, 255⟩ :=
  ⟨by decide, by decide, by decide⟩

/-- C5 (amended): the coverage mask is NOT one fresh mask per effect pass.
A gradient pass draws the current line into the INCOMING persistent mask and
keeps the result (no reset), so with gradient enabled and shadow disabled
the pass for line `i` operates on the accumulated silhouettes of lines
`0..i`; only a shadow pass resets the mask (to `emptyMask`) after
compositing.  Stated on one loop iteration (`lineStep`, outline disabled):
the gradient branch consumes and retains `drawTextMask` applied to the
incoming mask, while the shadow branch leaves the empty mask behind. -/
theorem C5_amended_mask_reuse (env : Env) (sf : FontHandle) (iw : ℤ) (W H : ℕ)
    (sb os : ℤ) (sc oc gc color : String) (lh : ℚ) (st : LoopState)
    (line : String) (wz hz : ℤ) (i2 i3 : Img)
    (hgr : apply_gradient st.imgVar
      (env.drawTextMask st.text_mask line (xpos env sf iw line, st.y) sf) color gc =
      some i3)
    (hsh : apply_shadow env st.imgVar
      (env.drawTextMask st.text_mask line (xpos env sf iw line, st.y) sf)
      (sb * scale_factor) sc = some i2) :
    lineStep env sf iw W H false sb sc false os oc true gc color lh st (line, wz, hz) =
      .ok ⟨i3, st.canvasObj, false,
        env.drawTextMask st.text_mask line (xpos env sf iw line, st.y) sf,
        st.y + pyInt ((hz : ℚ) * lh), st.shadowMasks,
        st.gradientMasks ++
          [env.drawTextMask st.text_mask line (xpos env sf iw line, st.y) sf]⟩ ∧
    lineStep env sf iw W H true sb sc false os oc false gc color lh st (line, wz, hz) =
      .ok ⟨i2, env.drawText st.canvasObj line (xpos env sf iw line, st.y) sf color, false,
        emptyMask W H, st.y + pyInt ((hz : ℚ) * lh),
        st.shadowMasks ++
          [env.drawTextMask st.text_mask line (xpos env sf iw line, st.y) sf],
        st.gradientMasks⟩ := by
  constructor
  · simp [lineStep, hgr]
  · simp [lineStep, hsh, mutateCanvas]

/-- C5 witness: the amended theorem applied at a concrete state: the
gradient branch keeps the accumulated mask `mC5`, the shadow branch leaves
the empty mask. -/
theorem C5_witness :
    apply_gradient stC5.imgVar mC5 "#FF0000" "#FF0000" = some gradC5 ∧
    apply_shadow envA stC5.imgVar mC5 (0 * scale_factor) "#000000" = some shadC5 ∧
    lineStep envA .fallbackBitmap 4 4 4 false 0 "#000000" false 1 "#000000" true "#FF0000"
        "#FF0000" 1 stC5 ("A", 4, 4) =
      .ok ⟨gradC5, stC5.canvasObj, false, mC5, stC5.y + pyInt ((4 : ℚ) * 1),
        stC5.shadowMasks, stC5.gradientMasks ++ [mC5]⟩ ∧
    lineStep envA .fallbackBitmap 4 4 4 true 0 "#000000" false 1 "#000000" false "#FF0000"
        "#FF0000" 1 stC5 ("A", 4, 4) =
      .ok ⟨shadC5, envA.drawText stC5.canvasObj "A" (xpos envA .fallbackBitmap 4 "A", stC5.y)
          .fallbackBitmap "#FF0000", false, emptyMask 4 4, stC5.y + pyInt ((4 : ℚ) * 1),
        stC5.shadowMasks ++ [mC5], stC5.gradientMasks⟩ :=
  ⟨rfl, rfl,
   (C5_amended_mask_reuse envA .fallbackBitmap 4 4 4 0 1 "#000000" "#000000" "#FF0000"
     "#FF0000" 1 stC5 "A" 4 4 shadC5 gradC5 rfl rfl).1,
   (C5_amended_mask_reuse envA .fallbackBitmap 4 4 4 0 1 "#000000" "#000000" "#FF0000"
     "#FF0000" 1 stC5 "A" 4 4 shadC5 gradC5 rfl rfl).2⟩

unseal Rat.mul Rat.add Rat.sub Rat.inv Rat.ofScientific in

/-- C5 counterexample: two lines with gradient enabled and shadow disabled.
After the render, the persistent mask (the one consumed by line `B`'s
gradient pass) still contains line `A`'s silhouette at pixel (80, 80), while
drawing line `B` alone on a fresh mask leaves that pixel at 0 — so line
`B`'s gradient pass did NOT operate on a mask containing only line `B`'s
glyphs, refuting the one-fresh-mask-per-pass claim. -/
theorem C5_counterexample :
    (generate_transparent_text envA "A\nB" (some 16) "#FF0000" "f" (some 1)
      false 0 "#000000" false 1 "#000000" true "#FF0000").toOption.map
        (fun r => r.text_mask.pix 80 80) = some 255 ∧
    (envA.drawTextMask (emptyMask 164 168) "B" (80, 84) .fallbackBitmap).pix 80 80 = 0 :=
  ⟨by decide, by decide⟩
